import Mathlib

set_option maxRecDepth 8192

/-!
Verification of the autodev_agent backend (shallow embedding).

Each definition below mirrors one function of the repository's Python
source, translated to Lean.  Python strings are modelled as `String`
(or `List Char` where character-level scanning matters), Python floats
that hold exact decimal values (90.0, ratios of small integers) are
modelled as `ℚ`, Python dicts used as records are modelled as
structures, and Python dicts used as maps are modelled as association
lists.  Stateful methods are modelled as explicit state-passing
functions.
-/

namespace AutoDev

/-! ### Python `str.count` (non-overlapping substring occurrences)

`countSubAux pat s skip` scans `s` left to right; a `skip` budget of
`k` means the next `k` characters are inside a previously counted
occurrence and may not start a new one.  This mirrors CPython's
left-to-right non-overlapping scan used by `str.count`. -/

def countSubAux (pat : List Char) : List Char → Nat → Nat
  | [], _ => 0
  | _ :: rest, skip + 1 => countSubAux pat rest skip
  | c :: rest, 0 =>
    if pat.isPrefixOf (c :: rest) then 1 + countSubAux pat rest (pat.length - 1)
    else countSubAux pat rest 0

/-- Python `s.count(pat)`; for an empty pattern Python returns `len(s) + 1`. -/
def pycount (s pat : String) : Nat :=
  if pat.data.isEmpty then s.length + 1 else countSubAux pat.data s.data 0

/-! ### CriticAgent text post-processing
Source: `src/backend/autodev_agent/agents/critic.py`,
`_count_issues`, `_analyze_severity`, `_count_suggestions`. -/

/-- The severity-breakdown dict returned by `CriticAgent._analyze_severity`. -/
structure SeverityBreakdown where
  critical : Nat
  high : Nat
  medium : Nat
  low : Nat
deriving DecidableEq, Repr

/-- `CriticAgent._analyze_severity`. -/
def analyze_severity (review : String) : SeverityBreakdown :=
  { critical := pycount review "Critical"
    high := pycount review "High Priority"
    medium := pycount review "Medium Priority"
    low := pycount review "Low Priority" }

/-- The `issue_indicators` list local to `CriticAgent._count_issues`. -/
def issue_indicators : List String :=
  ["Critical", "High Priority", "Medium Priority", "Low Priority"]

/-- `CriticAgent._count_issues`: the accumulation loop over the indicators. -/
def count_issues (review : String) : Nat :=
  issue_indicators.foldl (fun count indicator => count + pycount review indicator) 0

/-- `CriticAgent._count_suggestions`. -/
def count_suggestions (review : String) : Nat :=
  pycount review "Recommendation" + pycount review "Suggestion"

/-- A review text with exactly 2 occurrences of "Critical", 1 of
"High Priority", 0 of "Medium Priority" and 3 of "Low Priority". -/
def sampleReview : String :=
  "Critical one. Critical two. High Priority a. Low Priority a. Low Priority b. Low Priority c."

/-! ### TesterAgent text post-processing
Source: `src/backend/autodev_agent/agents/tester.py`,
`_count_tests`, `_estimate_coverage`. -/

/-- `TesterAgent._count_tests`. -/
def count_tests (tests : String) : Nat := pycount tests "def test_"

/-- `TesterAgent._estimate_coverage` (the returned floats 90.0, 75.0,
60.0, 40.0 are exact, modelled in `ℚ`). -/
def estimate_coverage (tests : String) : ℚ :=
  let test_count := count_tests tests
  if test_count > 20 then 90
  else if test_count > 10 then 75
  else if test_count > 5 then 60
  else 40

/-- A generated-test text containing exactly `n` occurrences of `def test_`. -/
def mkTests (n : Nat) : String := String.join (List.replicate n "def test_x\n")

/-! ### SummarizerAgent metadata
Source: `src/backend/autodev_agent/agents/summarizer.py`, `execute`.
The request's context field `content` is modelled as `Option String`
(`none` when the field is absent); `execute` reads it via
`context.get("content", "")`.  Only the metadata entries the claims
concern are modelled (`key_points` is omitted). -/

/-- The metadata dict built by `SummarizerAgent.execute`. -/
structure SummaryMetadata where
  original_length : Nat
  summary_length : Nat
  compression_ratio : ℚ
deriving DecidableEq, Repr

/-- The metadata computation inside `SummarizerAgent.execute`:
`content = context.get("content", "")` and
`compression_ratio = len(summary) / len(content) if content else 0`.
The division is total in `ℚ`, mirroring that the Python guard makes the
zero-denominator case unreachable. -/
def summarizer_metadata (context_content : Option String) (summary : String) : SummaryMetadata :=
  let content := context_content.getD ""
  { original_length := content.length
    summary_length := summary.length
    compression_ratio :=
      if content = "" then 0 else (summary.length : ℚ) / (content.length : ℚ) }

/-- A 100-character source text. -/
def hundredChars : String := String.mk (List.replicate 100 'a')

/-- A 25-character summary text. -/
def twentyFiveChars : String := String.mk (List.replicate 25 'b')

/-! ### Logging size-string parser
Source: `src/backend/autodev_agent/services/logging.py`, `_parse_size`.
Strings are scanned as `List Char`; `size_str.upper()` is
`List.map Char.toUpper`; `endswith` is a drop-and-compare;
`size_str[:-2]` is `take (length - 2)`.  The accepted numeral grammar
is restricted to unsigned integer numerals — the digit strings the
claims concern; a non-numeral prefix is modelled as `none` (Python
raises `ValueError`).  The value semantics of the suffixed branches
follows CPython exactly: `float(prefix)` rounds the integer value to
the nearest IEEE-754 double (round half to even on a 53-bit
significand, overflowing to `inf` when the rounded value reaches
`2^1024`), each `* 1024` is an exact power-of-two scaling that
overflows to `inf` at `2^1024`, and the final `int(...)` is exact on a
finite integer-valued double but raises `OverflowError` on `inf`
(modelled as `none`).  The bare branch `int(size_str)` is exact
arbitrary-precision conversion. -/

/-- The `HealthStatus` enumeration. -/
inductive HealthStatus where
  | healthy
  | unhealthy
  | degraded
deriving DecidableEq, Repr

/-- A recorded health check (decision-relevant fields). -/
structure HealthCheck where
  name : String
  status : HealthStatus

/-- The critical-check name list inside `is_ready`. -/
def critical_names : List String := ["database", "api_key", "file_system"]

/-- The decision of `HealthService.is_ready`: filter the checks whose
name is critical and require them all to be healthy. -/
def is_ready (checks : List HealthCheck) : Bool :=
  let critical_checks := checks.filter (fun c => critical_names.contains c.name)
  critical_checks.all (fun c => c.status == HealthStatus.healthy)

/-- The overall-status computation of `HealthService.get_health_status`. -/
def overall_status (checks : List HealthCheck) : HealthStatus :=
  if checks.all (fun c => c.status == HealthStatus.healthy) then HealthStatus.healthy
  else if checks.any (fun c => c.status == HealthStatus.unhealthy) then HealthStatus.unhealthy
  else HealthStatus.degraded

/-- The overall status as the specification words it: `unhealthy` if any
recorded check is unhealthy, else `degraded` if any is not healthy,
else `healthy`. -/
def overall_status_spec (checks : List HealthCheck) : HealthStatus :=
  if checks.any (fun c => c.status == HealthStatus.unhealthy) then HealthStatus.unhealthy
  else if checks.any (fun c => !(c.status == HealthStatus.healthy)) then HealthStatus.degraded
  else HealthStatus.healthy

/-! ### BaseAgent execution envelope
Source: `src/backend/autodev_agent/agents/base.py`: `AgentStatus`,
`AgentResult`, `BaseAgent.__init__`, `BaseAgent.run`,
`BaseAgent.get_stats`.  The mutable instance attributes of a
`BaseAgent` are gathered in `AgentState`; `run` becomes a function
from a state (plus the external behaviour of `self.execute`) to a
result and a new state.  Wall-clock measurements are abstracted as
parameters (`wall` for the elapsed seconds computed in the exception
branch, `now` for the completion timestamp).  The body of each attempt
either returns an `AgentResult` or raises (an `asyncio.TimeoutError`
from `wait_for` or any other exception — both retry identically), so
one attempt is modelled by `AttemptOutcome`.  `AgentResult.metadata`
is not consulted by `run` and is omitted. -/

/-- The `AgentStatus` enumeration. -/
inductive AgentStatus where
  | idle
  | running
  | success
  | failed
  | disabled
deriving DecidableEq, Repr

/-- The fields of the `AgentResult` dataclass that `run` reads or builds. -/
structure AgentResult where
  success : Bool
  output : String
  error : Option String
  execution_time : ℚ
  tokens_used : Nat
  cost : ℚ
deriving DecidableEq, Repr

/-- The mutable attributes of one `BaseAgent` instance. -/
structure AgentState where
  enabled : Bool
  max_retries : Nat
  status : AgentStatus
  current_task : Option String
  last_execution : Option Nat
  execution_count : Nat
  success_count : Nat
  failure_count : Nat
  total_execution_time : ℚ
  total_tokens_used : Nat
  total_cost : ℚ
deriving DecidableEq, Repr

/-- What one `await asyncio.wait_for(self.execute(request), ...)` attempt does:
either return a result, or raise (timeout or any exception). -/
inductive AttemptOutcome where
  | returns (r : AgentResult)
  | raises (msg : String)

/-- The retry loop of `run`: attempt `i` is tried while `remaining`
attempts are allowed; the first returned result wins, a raise on the
final attempt propagates, and a raise on an earlier attempt retries.
`none` is the fall-through when `max_retries == 0` (the Python `for`
body never executes and `run` returns `None`). -/
def loopFrom (attempts : Nat → AttemptOutcome) : Nat → Nat → Option (Except String AgentResult)
  | _, 0 => none
  | i, remaining + 1 =>
    match attempts i with
    | AttemptOutcome.returns r => some (Except.ok r)
    | AttemptOutcome.raises m =>
      if remaining = 0 then some (Except.error m) else loopFrom attempts (i + 1) remaining

/-- The immediate failure result `run` builds for a disabled agent. -/
def disabled_result : AgentResult :=
  { success := false, output := "", error := some "Agent is disabled",
    execution_time := 0, tokens_used := 0, cost := 0 }

/-- `BaseAgent.run`.  Returns the `AgentResult` (or `none` on the
`max_retries == 0` fall-through) together with the updated agent state. -/
def run (st : AgentState) (task : String) (attempts : Nat → AttemptOutcome)
    (wall : ℚ) (now : Nat) : Option AgentResult × AgentState :=
  if st.enabled = false then
    (some disabled_result, st)
  else
    let stR := { st with status := AgentStatus.running, current_task := some task }
    match loopFrom attempts 0 st.max_retries with
    | some (Except.ok r) =>
      (some r,
       { stR with
          execution_count := stR.execution_count + 1
          success_count := stR.success_count + (if r.success then 1 else 0)
          failure_count := stR.failure_count + (if r.success then 0 else 1)
          total_execution_time := stR.total_execution_time + r.execution_time
          total_tokens_used := stR.total_tokens_used + r.tokens_used
          total_cost := stR.total_cost + r.cost
          status := if r.success then AgentStatus.success else AgentStatus.failed
          last_execution := some now
          current_task := none })
    | some (Except.error m) =>
      (some { success := false, output := "", error := some m,
              execution_time := wall, tokens_used := 0, cost := 0 },
       { stR with
          status := AgentStatus.failed
          failure_count := stR.failure_count + 1
          current_task := none })
    | none =>
      (none, { stR with current_task := none })

/-- `get_stats()["success_rate"]`. -/
def success_rate (st : AgentState) : ℚ :=
  if st.execution_count > 0 then (st.success_count : ℚ) / (st.execution_count : ℚ) else 0

/-- `get_stats()["average_execution_time"]`. -/
def average_execution_time (st : AgentState) : ℚ :=
  if st.execution_count > 0 then st.total_execution_time / (st.execution_count : ℚ) else 0

/-- One invocation of `run` on an enabled agent in which some attempt's
`execute` returned a result with success flag `b`, taking the agent
state from `st` to `st'`. -/
def run_returned (st : AgentState) (b : Bool) (st' : AgentState) : Prop :=
  ∃ (task : String) (attempts : Nat → AttemptOutcome) (wall : ℚ) (now : Nat) (r : AgentResult),
    st.enabled = true ∧
    loopFrom attempts 0 st.max_retries = some (Except.ok r) ∧
    r.success = b ∧
    st' = (run st task attempts wall now).2

/-- `invocations st0 n m st`: starting from `st0`, a sequence of `run`
invocations whose `execute` returned — `n` of them successful and `m`
failed — ends in state `st`. -/
inductive invocations : AgentState → Nat → Nat → AgentState → Prop where
  | base (st : AgentState) : invocations st 0 0 st
  | succ_step {st0 : AgentState} {n m : Nat} {st st' : AgentState} :
      invocations st0 n m st → run_returned st true st' → invocations st0 (n + 1) m st'
  | fail_step {st0 : AgentState} {n m : Nat} {st st' : AgentState} :
      invocations st0 n m st → run_returned st false st' → invocations st0 n (m + 1) st'

/-- A freshly constructed agent (`BaseAgent.__init__` with the default
`enabled=True, max_retries=3`): all counters zero, status idle. -/
def initState : AgentState :=
  { enabled := true, max_retries := 3, status := AgentStatus.idle,
    current_task := none, last_execution := none, execution_count := 0,
    success_count := 0, failure_count := 0, total_execution_time := 0,
    total_tokens_used := 0, total_cost := 0 }

/-- A successful sample result for witnesses. -/
def okResult : AgentResult :=
  { success := true, output := "ok", error := none,
    execution_time := 2, tokens_used := 7, cost := 0 }

/-- A failing sample result for witnesses. -/
def badResult : AgentResult :=
  { success := false, output := "", error := some "boom",
    execution_time := 1, tokens_used := 3, cost := 0 }

/-- A disabled agent (after `disable()`). -/
def disabledState : AgentState :=
  { initState with enabled := false, status := AgentStatus.disabled }

/-- An `execute` behaviour whose every attempt returns `okResult`. -/
def attemptsOk : Nat → AttemptOutcome := fun _ => AttemptOutcome.returns okResult

/-- An `execute` behaviour whose every attempt raises. -/
def attemptsRaise : Nat → AttemptOutcome := fun _ => AttemptOutcome.raises "boom"

/-! ### AgentOrchestrator
Source: `src/backend/autodev_agent/agents/orchestrator.py`,
`AgentOrchestrator.execute_workflow` (with `_execute_planning` ..
`_execute_summarization`).  Each `_execute_<phase>` helper awaits one
agent's `run` and repackages its result as a dict
`{success, output, metadata, error, execution_time}`; those five phase
results are the external inputs of the control flow and are passed in
as parameters `p c r t s` (`metadata` omitted).  The workflow-record
status strings `"running"/"completed"/"failed"` are modelled by
`WStatus`; `self.active_workflows` (a dict) by an association list
with overwrite-on-insert; timestamps and durations are not modelled.
The `try/except/finally` shape is modelled by splitting the method
into `execute_workflow_body` (the `try` body and the `except` handler)
followed unconditionally by `cleanup_active` (the `finally` block), so
the cleanup applies to whatever state the body — or an exception
escaping it — left behind. -/

/-- Workflow record status. -/
inductive WStatus where
  | running
  | completed
  | failed
deriving DecidableEq, Repr

/-- The five orchestrated agents. -/
inductive AgentName where
  | planner
  | coder
  | critic
  | tester
  | summarizer
deriving DecidableEq, Repr

/-- One `_execute_<phase>` result dict (the fields the control flow reads). -/
structure PhaseResult where
  success : Bool
  output : String
  error : Option String
  execution_time : ℚ

/-- One entry of `workflow["steps"]`; the source appends every entry
with the literal status string `"completed"`. -/
structure StepRecord where
  agent : AgentName
  status : String
  result : PhaseResult

/-- One workflow record. -/
structure Workflow where
  id : String
  task : String
  status : WStatus
  steps : List StepRecord
  error : Option String

/-- The orchestrator's mutable state. -/
structure OrchState where
  active : List (String × Workflow)
  history : List Workflow
  total_workflows : Nat
  successful_workflows : Nat
  failed_workflows : Nat

/-- What one `execute_workflow` call produces: the response's status
and error, the final orchestrator state, the agents whose `run` was
awaited, and the final workflow record. -/
structure WorkflowOutcome where
  response_status : WStatus
  response_error : Option String
  state : OrchState
  invoked : List AgentName
  record : Workflow

/-- Python string interpolation of a phase's `error` value (`None`
renders as "None"). -/
def errText (p : PhaseResult) : String :=
  match p.error with
  | some e => e
  | none => "None"

/-- One appended step record. -/
def mkStep (a : AgentName) (p : PhaseResult) : StepRecord :=
  { agent := a, status := "completed", result := p }

/-- The `except` handler of `execute_workflow`: mark the record failed,
bump `failed_workflows`, append to history, answer a failed response. -/
def failOutcome (os : OrchState) (wid task : String) (steps : List StepRecord)
    (msg : String) (inv : List AgentName) : WorkflowOutcome :=
  let wf : Workflow :=
    { id := wid, task := task, status := WStatus.failed, steps := steps, error := some msg }
  { response_status := WStatus.failed
    response_error := some msg
    state := { os with failed_workflows := os.failed_workflows + 1,
                       history := os.history ++ [wf] }
    invoked := inv
    record := wf }

/-- The `try` body and `except` handler of
`AgentOrchestrator.execute_workflow`: register the running record in
the active map, then run Planning, Coding, Review, Testing,
Summarization in order, aborting into the handler when the Planning,
Coding or Testing result has `success == False` (the Review result's
flag is never consulted). -/
def execute_workflow_body (os : OrchState) (wid task : String)
    (p c r t s : PhaseResult) : WorkflowOutcome :=
  let wf0 : Workflow :=
    { id := wid, task := task, status := WStatus.running, steps := [], error := none }
  let os0 : OrchState :=
    { os with active := (wid, wf0) :: os.active.filter (fun kv => kv.1 != wid),
              total_workflows := os.total_workflows + 1 }
  let steps1 := [mkStep AgentName.planner p]
  if p.success = false then
    failOutcome os0 wid task steps1 ("Planning failed: " ++ errText p) [AgentName.planner]
  else
    let steps2 := steps1 ++ [mkStep AgentName.coder c]
    if c.success = false then
      failOutcome os0 wid task steps2 ("Coding failed: " ++ errText c)
        [AgentName.planner, AgentName.coder]
    else
      let steps3 := steps2 ++ [mkStep AgentName.critic r]
      let steps4 := steps3 ++ [mkStep AgentName.tester t]
      if t.success = false then
        failOutcome os0 wid task steps4 ("Testing failed: " ++ errText t)
          [AgentName.planner, AgentName.coder, AgentName.critic, AgentName.tester]
      else
        let steps5 := steps4 ++ [mkStep AgentName.summarizer s]
        let wf : Workflow :=
          { id := wid, task := task, status := WStatus.completed, steps := steps5, error := none }
        { response_status := WStatus.completed
          response_error := none
          state := { os0 with successful_workflows := os0.successful_workflows + 1,
                              history := os0.history ++ [wf] }
          invoked := [AgentName.planner, AgentName.coder, AgentName.critic,
                      AgentName.tester, AgentName.summarizer]
          record := wf }

/-- The `finally` block: `if workflow_id in self.active_workflows:
del self.active_workflows[workflow_id]`.  It is a function of an
arbitrary orchestrator state, because `finally` runs whatever state the
body or the response construction left behind. -/
def cleanup_active (wid : String) (os : OrchState) : OrchState :=
  if os.active.any (fun kv => kv.1 == wid) then
    { os with active := os.active.filter (fun kv => kv.1 != wid) }
  else os

/-- `AgentOrchestrator.execute_workflow` = body then final cleanup. -/
def execute_workflow (os : OrchState) (wid task : String)
    (p c r t s : PhaseResult) : WorkflowOutcome :=
  let o := execute_workflow_body os wid task p c r t s
  { o with state := cleanup_active wid o.state }

/-- A successful phase result. -/
def okPhase : PhaseResult :=
  { success := true, output := "out", error := none, execution_time := 1 }

/-- A failed phase result. -/
def failedPhase : PhaseResult :=
  { success := false, output := "", error := some "boom", execution_time := 1 }

/-- A fresh orchestrator state. -/
def emptyOrch : OrchState :=
  { active := [], history := [], total_workflows := 0,
    successful_workflows := 0, failed_workflows := 0 }

end AutoDev

namespace AutoDev

/-- C5: the Critic's severity breakdown counts each of the four literal
markers independently, the issue count is the sum of those four counts,
the suggestion count is the sum of the "Recommendation" and
"Suggestion" occurrence counts, and on a review text with exactly
2/1/0/3 marker occurrences the breakdown is {2, 1, 0, 3} with issue
count 6.  Determinism (idempotence of the purely textual computation)
is inherent: the counters are functions of the review string alone. -/
theorem critic_severity_counts (r : String) :
    analyze_severity r =
      { critical := pycount r "Critical", high := pycount r "High Priority",
        medium := pycount r "Medium Priority", low := pycount r "Low Priority" } ∧
    count_issues r = (analyze_severity r).critical + (analyze_severity r).high
        + (analyze_severity r).medium + (analyze_severity r).low ∧
    count_suggestions r = pycount r "Recommendation" + pycount r "Suggestion" ∧
    analyze_severity sampleReview = ⟨2, 1, 0, 3⟩ ∧
    count_issues sampleReview = 6 := by
  refine ⟨rfl, ?_, rfl, by decide, by decide⟩
  simp [count_issues, issue_indicators, analyze_severity]

/-- C6: the Tester's coverage estimate is the step function of the
`def test_` occurrence count with strict thresholds 20/10/5 and values
90.0/75.0/60.0/40.0; in particular 21 occurrences yield 90.0 while
exactly 20 yield 75.0, exactly 10 yield 60.0 and exactly 5 yield 40.0. -/
theorem tester_coverage_step (t : String) :
    estimate_coverage t =
      (if count_tests t > 20 then (90 : ℚ)
       else if count_tests t > 10 then 75
       else if count_tests t > 5 then 60
       else 40) ∧
    count_tests (mkTests 21) = 21 ∧ estimate_coverage (mkTests 21) = 90 ∧
    count_tests (mkTests 20) = 20 ∧ estimate_coverage (mkTests 20) = 75 ∧
    count_tests (mkTests 10) = 10 ∧ estimate_coverage (mkTests 10) = 60 ∧
    count_tests (mkTests 5) = 5 ∧ estimate_coverage (mkTests 5) = 40 := by
  refine ⟨rfl, ?_, ?_, ?_, ?_, ?_, ?_, ?_, ?_⟩ <;> decide

/-- C7: the Summarizer's compression ratio is 0 when the source content
is absent or empty (no division-by-zero fault — the guarded branch is
the one taken), and equals summary length divided by source length for
a non-empty source; a 100-character source with a 25-character summary
gives ratio 1/4 = 0.25. -/
theorem summarizer_compression (summary : String) :
    (summarizer_metadata none summary).compression_ratio = 0 ∧
    (summarizer_metadata (some "") summary).compression_ratio = 0 ∧
    (∀ content : String, content ≠ "" →
      (summarizer_metadata (some content) summary).compression_ratio
        = (summary.length : ℚ) / (content.length : ℚ)) ∧
    (summarizer_metadata (some hundredChars) twentyFiveChars).compression_ratio = 1 / 4 := by
  have h3 : ∀ content : String, content ≠ "" →
      (summarizer_metadata (some content) summary).compression_ratio
        = (summary.length : ℚ) / (content.length : ℚ) := by
    intro content hc
    simp [summarizer_metadata, hc]
  refine ⟨rfl, rfl, h3, ?_⟩
  have h4 : ∀ content : String, content ≠ "" →
      (summarizer_metadata (some content) twentyFiveChars).compression_ratio
        = (twentyFiveChars.length : ℚ) / (content.length : ℚ) := by
    intro content hc
    simp [summarizer_metadata, hc]
  rw [h4 hundredChars (by decide)]
  rw [(by decide : twentyFiveChars.length = 25), (by decide : hundredChars.length = 100)]
  norm_num

/-- C7 witness: the general non-empty-source clause instantiated at the
concrete 100-character source and 25-character summary. -/
theorem summarizer_compression_witness :
    (summarizer_metadata (some hundredChars) twentyFiveChars).compression_ratio
      = (twentyFiveChars.length : ℚ) / (hundredChars.length : ℚ) :=
  (summarizer_compression twentyFiveChars).2.2.1 hundredChars (by decide)

/-- C9: `is_ready` is true exactly when every recorded check named
`database`, `api_key` or `file_system` is healthy, and the overall
status of `get_health_status` agrees with the specification's rule:
`unhealthy` if any check is unhealthy, else `degraded` if any check is
not healthy, else `healthy`. -/
theorem health_decision_spec (checks : List HealthCheck) :
    (is_ready checks = true ↔
      ∀ c ∈ checks, c.name ∈ critical_names → c.status = HealthStatus.healthy) ∧
    overall_status checks = overall_status_spec checks := by
  constructor
  · simp only [is_ready, List.all_eq_true, List.mem_filter, critical_names,
      List.contains_cons, List.contains_nil, Bool.or_false, Bool.or_eq_true,
      beq_iff_eq, List.mem_cons, List.not_mem_nil, or_false, and_imp]
  · unfold overall_status overall_status_spec
    by_cases hall : ∀ c ∈ checks, c.status = HealthStatus.healthy
    · have h0 : checks.all (fun c => c.status == HealthStatus.healthy) = true := by
        simp only [List.all_eq_true, beq_iff_eq]; exact hall
      have h1 : checks.any (fun c => c.status == HealthStatus.unhealthy) = false := by
        simp only [List.any_eq_false, beq_iff_eq]
        intro c hc
        simp [hall c hc]
      have h2 : checks.any (fun c => !(c.status == HealthStatus.healthy)) = false := by
        simp only [List.any_eq_false, Bool.not_eq_true, Bool.not_eq_true', beq_iff_eq]
        intro c hc
        simp [hall c hc]
      simp [h0, h1, h2]
    · have h0 : checks.all (fun c => c.status == HealthStatus.healthy) = false := by
        rw [Bool.eq_false_iff]
        simp only [ne_eq, List.all_eq_true, beq_iff_eq]
        exact hall
      have h2 : checks.any (fun c => !(c.status == HealthStatus.healthy)) = true := by
        simp only [not_forall] at hall
        obtain ⟨c, hc, hne⟩ := hall
        simp only [List.any_eq_true]
        exact ⟨c, hc, by simpa using hne⟩
      by_cases hun : ∃ c ∈ checks, c.status = HealthStatus.unhealthy
      · have h1 : checks.any (fun c => c.status == HealthStatus.unhealthy) = true := by
          simp only [List.any_eq_true, beq_iff_eq]
          exact hun
        simp [h0, h1]
      · have h1 : checks.any (fun c => c.status == HealthStatus.unhealthy) = false := by
          simp only [List.any_eq_false, beq_iff_eq]
          intro c hc hcu
          exact hun ⟨c, hc, hcu⟩
        simp [h0, h1, h2]

/-- C2: `run` on a disabled agent returns, for every request and every
`execute` behaviour, the immediate failure result (success false,
execution time 0, non-empty error) and leaves the whole agent state —
in particular every lifetime counter — unchanged; no attempt of
`execute` influences the outcome. -/
theorem run_disabled (st : AgentState) (task : String) (attempts : Nat → AttemptOutcome)
    (wall : ℚ) (now : Nat) (h : st.enabled = false) :
    run st task attempts wall now = (some disabled_result, st) ∧
    disabled_result.success = false ∧
    disabled_result.execution_time = 0 ∧
    ∃ e, disabled_result.error = some e ∧ e ≠ "" := by
  refine ⟨?_, rfl, rfl, "Agent is disabled", rfl, by decide⟩
  unfold run
  rw [if_pos h]

/-- C2 witness: a concrete disabled agent with a raising `execute`. -/
theorem run_disabled_witness :
    run disabledState "t" attemptsRaise 5 0 = (some disabled_result, disabledState) ∧
    disabled_result.success = false ∧
    disabled_result.execution_time = 0 ∧
    ∃ e, disabled_result.error = some e ∧ e ≠ "" :=
  run_disabled disabledState "t" attemptsRaise 5 0 rfl

/-- C4: a `run` on an enabled agent whose every attempt raised or timed
out (the retry loop ends in the propagated-exception branch) increments
`failure_count`, sets the status to `failed`, returns a failure result
carrying the cause and the wall-clock time, and leaves
`execution_count`, `success_count` and all three totals unchanged —
hence `success_count + failure_count` then exceeds `execution_count`. -/
theorem run_exhausted (st : AgentState) (task : String) (attempts : Nat → AttemptOutcome)
    (wall : ℚ) (now : Nat) (m : String) (hen : st.enabled = true)
    (hloop : loopFrom attempts 0 st.max_retries = some (Except.error m)) :
    ((run st task attempts wall now).2).failure_count = st.failure_count + 1 ∧
    ((run st task attempts wall now).2).execution_count = st.execution_count ∧
    ((run st task attempts wall now).2).success_count = st.success_count ∧
    ((run st task attempts wall now).2).total_execution_time = st.total_execution_time ∧
    ((run st task attempts wall now).2).total_tokens_used = st.total_tokens_used ∧
    ((run st task attempts wall now).2).total_cost = st.total_cost ∧
    ((run st task attempts wall now).2).status = AgentStatus.failed ∧
    (run st task attempts wall now).1 =
      some { success := false, output := "", error := some m,
             execution_time := wall, tokens_used := 0, cost := 0 } ∧
    (st.success_count + st.failure_count ≥ st.execution_count →
      ((run st task attempts wall now).2).success_count
          + ((run st task attempts wall now).2).failure_count
        > ((run st task attempts wall now).2).execution_count) := by
  simp only [run, hen, hloop]
  simp
  omega

/-- C4 witness: a fresh agent whose three attempts all raise. -/
theorem run_exhausted_witness :
    ((run initState "t" attemptsRaise 5 0).2).failure_count = initState.failure_count + 1 ∧
    ((run initState "t" attemptsRaise 5 0).2).execution_count = initState.execution_count ∧
    ((run initState "t" attemptsRaise 5 0).2).success_count = initState.success_count ∧
    ((run initState "t" attemptsRaise 5 0).2).total_execution_time
      = initState.total_execution_time ∧
    ((run initState "t" attemptsRaise 5 0).2).total_tokens_used
      = initState.total_tokens_used ∧
    ((run initState "t" attemptsRaise 5 0).2).total_cost = initState.total_cost ∧
    ((run initState "t" attemptsRaise 5 0).2).status = AgentStatus.failed ∧
    (run initState "t" attemptsRaise 5 0).1 =
      some { success := false, output := "", error := some "boom",
             execution_time := 5, tokens_used := 0, cost := 0 } ∧
    (initState.success_count + initState.failure_count ≥ initState.execution_count →
      ((run initState "t" attemptsRaise 5 0).2).success_count
          + ((run initState "t" attemptsRaise 5 0).2).failure_count
        > ((run initState "t" attemptsRaise 5 0).2).execution_count) :=
  run_exhausted initState "t" attemptsRaise 5 0 "boom" rfl rfl

theorem invocations_counts {st0 : AgentState} {n m : Nat} {st : AgentState}
    (h : invocations st0 n m st) :
    st.execution_count = st0.execution_count + n + m ∧
    st.success_count = st0.success_count + n := by
  induction h with
  | base => simp
  | succ_step hprev hstep ih =>
    obtain ⟨task, attempts, wall, now, r, hen, hloop, hsucc, hst'⟩ := hstep
    subst hst'
    simp only [run, hen, hloop]
    simp [hsucc]
    omega
  | fail_step hprev hstep ih =>
    obtain ⟨task, attempts, wall, now, r, hen, hloop, hsucc, hst'⟩ := hstep
    subst hst'
    simp only [run, hen, hloop]
    simp [hsucc]
    omega

/-- C3: after `N` successful and `M` failed result-returning
invocations of `run` starting from a fresh agent (zero counters),
`get_stats` reports `success_rate = N/(N+M)` (0 when `N+M = 0`) and
`average_execution_time = total_execution_time/(N+M)` (0 when
`N+M = 0`). -/
theorem stats_rates (st0 : AgentState) (N M : Nat) (st : AgentState)
    (h0e : st0.execution_count = 0) (h0s : st0.success_count = 0)
    (h : invocations st0 N M st) :
    success_rate st = (if N + M = 0 then 0 else (N : ℚ) / ((N : ℚ) + (M : ℚ))) ∧
    average_execution_time st =
      (if N + M = 0 then 0 else st.total_execution_time / ((N : ℚ) + (M : ℚ))) := by
  obtain ⟨he, hs⟩ := invocations_counts h
  rw [h0e] at he
  rw [h0s] at hs
  constructor
  · unfold success_rate
    by_cases hz : N + M = 0
    · rw [if_pos hz, if_neg (by omega)]
    · rw [if_neg hz, if_pos (by omega), hs, he]
      push_cast
      ring_nf
  · unfold average_execution_time
    by_cases hz : N + M = 0
    · rw [if_pos hz, if_neg (by omega)]
    · rw [if_neg hz, if_pos (by omega), he]
      push_cast
      ring_nf

/-- C3 witness: one successful invocation on a fresh agent yields
success rate 1/(1+0) and average time total/(1+0). -/
theorem stats_rates_witness :
    success_rate ((run initState "t" attemptsOk 2 0).2)
      = (if 1 + 0 = 0 then 0 else ((1 : Nat) : ℚ) / (((1 : Nat) : ℚ) + ((0 : Nat) : ℚ))) ∧
    average_execution_time ((run initState "t" attemptsOk 2 0).2)
      = (if 1 + 0 = 0 then 0
         else ((run initState "t" attemptsOk 2 0).2).total_execution_time
                / (((1 : Nat) : ℚ) + ((0 : Nat) : ℚ))) :=
  stats_rates initState 1 0 ((run initState "t" attemptsOk 2 0).2) rfl rfl
    (invocations.succ_step (invocations.base initState)
      ⟨"t", attemptsOk, 2, 0, okResult, rfl, rfl, rfl, rfl⟩)

/-- C1 counterexample: with Planning, Coding and Review all successful
and Testing failed, the workflow aborts — the Summarizer is never
invoked and the record ends `failed` — refuting the claim that a
Testing phase failure does not abort the pipeline. -/
theorem workflow_testing_aborts_cex :
    (execute_workflow emptyOrch "w1" "task" okPhase okPhase okPhase failedPhase okPhase).invoked
        = [AgentName.planner, AgentName.coder, AgentName.critic, AgentName.tester] ∧
    AgentName.summarizer ∉
      (execute_workflow emptyOrch "w1" "task" okPhase okPhase okPhase failedPhase
          okPhase).invoked ∧
    (execute_workflow emptyOrch "w1" "task" okPhase okPhase okPhase failedPhase
        okPhase).record.status = WStatus.failed := by
  decide

/-- C1 (amended): a failed Planning or Coding phase aborts the workflow
immediately (no later agent invoked, record status `failed`), and so
does a failed Testing phase; a failed Review phase does not abort — the
pipeline proceeds to Testing and Summarization regardless of the Review
flag, and the record ends `completed` exactly when Planning, Coding and
Testing all succeeded.  Stated as exact equations for the final record
status, the response status and the invoked-agent list, in which the
Review flag does not occur. -/
theorem workflow_phase_gating (os : OrchState) (wid task : String) (p c r t s : PhaseResult) :
    (execute_workflow os wid task p c r t s).record.status
        = (if p.success && c.success && t.success then WStatus.completed else WStatus.failed) ∧
    (execute_workflow os wid task p c r t s).response_status
        = (if p.success && c.success && t.success then WStatus.completed else WStatus.failed) ∧
    (execute_workflow os wid task p c r t s).invoked
        = [AgentName.planner]
          ++ (if p.success then
                [AgentName.coder]
                ++ (if c.success then
                      [AgentName.critic, AgentName.tester]
                      ++ (if t.success then [AgentName.summarizer] else [])
                    else [])
              else []) := by
  cases hp : p.success <;> cases hc : c.success <;> cases ht : t.success <;>
    simp [execute_workflow, execute_workflow_body, failOutcome, cleanup_active, hp, hc, ht]

theorem cleanup_removes (wid : String) (st : OrchState) (wf : Workflow) :
    (wid, wf) ∉ (cleanup_active wid st).active := by
  unfold cleanup_active
  by_cases h : st.active.any (fun kv => kv.1 == wid) = true
  · rw [if_pos h]
    intro hmem
    simp only [List.mem_filter] at hmem
    simp at hmem
  · rw [if_neg h]
    intro hmem
    apply h
    simp only [List.any_eq_true]
    exact ⟨(wid, wf), hmem, by simp⟩

theorem cleanup_history (wid : String) (st : OrchState) :
    (cleanup_active wid st).history = st.history := by
  unfold cleanup_active
  split <;> rfl

/-- C10: whether the run ends `completed` or `failed`, upon return the
final workflow record has been appended to `workflow_history` and the
workflow id is absent from `active_workflows`; moreover the final
cleanup step removes the id from the active map of *every* state — the
guarantee that holds even when an exception interrupts the response
construction, since `finally` runs on whatever state is then current. -/
theorem workflow_cleanup_invariant (os : OrchState) (wid task : String)
    (p c r t s : PhaseResult) :
    (execute_workflow os wid task p c r t s).state.history
        = os.history ++ [(execute_workflow os wid task p c r t s).record] ∧
    (∀ wf : Workflow, (wid, wf) ∉ (execute_workflow os wid task p c r t s).state.active) ∧
    (∀ anyState : OrchState, ∀ wf : Workflow,
      (wid, wf) ∉ (cleanup_active wid anyState).active) := by
  refine ⟨?_, fun wf => cleanup_removes wid _ wf, fun anyState wf => cleanup_removes wid anyState wf⟩
  cases hp : p.success <;> cases hc : c.success <;> cases ht : t.success <;>
    simp [execute_workflow, execute_workflow_body, failOutcome, cleanup_history, hp, hc, ht]

end AutoDev
